import Mathlib

/-!
Shallow embedding of the `cosmology.core` package
(repository `cosmology-api/cosmology`).

A cosmology object is opaque to this layer: the layer only reads a fixed
set of primitive accessors from it (the `StandardCosmologyAPI` protocol of
the external `cosmology.api` package).  We model such an object as a record
of those accessors over an abstract array type `A`: attribute reads become
record fields of type `A`, method calls become fields of type `A → A`, and
the neutrino-mass tuple becomes a `List A`.

The module-level functions of `cosmology/core/background.py`,
`cosmology/core/standard.py` and `cosmology/core/components/*.py` are
translated one-to-one below, inside namespaces named after their module.
`functools.singledispatch` functions are modelled by an explicit
dispatcher value (`SDFun`): a default implementation plus a registry
keyed by the concrete runtime type tag of the first argument.
-/

namespace CosmologyCore

/-- The primitive accessors of a cosmology object, as consumed by this
layer (the union of the Background and Standard capability tiers of the
external `cosmology.api` protocols). -/
structure Cosmology (A : Type) where
  scale_factor0 : A
  scale_factor : A → A
  Otot0 : A
  Otot : A → A
  critical_density0 : A
  critical_density : A → A
  age : A → A
  lookback_time : A → A
  comoving_distance : A → A
  comoving_transverse_distance : A → A
  angular_diameter_distance : A → A
  luminosity_distance : A → A
  comoving_volume : A → A
  differential_comoving_volume : A → A
  H0 : A
  h : A
  hubble_distance : A
  hubble_time : A
  H : A → A
  efunc : A → A
  inv_efunc : A → A
  Tcmb0 : A
  Tcmb : A → A
  Ok0 : A
  Ok : A → A
  Om0 : A
  Om : A → A
  Ob0 : A
  Ob : A → A
  Odm0 : A
  Odm : A → A
  Ogamma0 : A
  Ogamma : A → A
  Onu0 : A
  Onu : A → A
  Ode0 : A
  Ode : A → A
  Neff : A
  m_nu : List A

variable {A : Type} {T : Type} {B : Type}

/-- A `functools.singledispatch` generic function: a generic default
implementation plus a registry of specialized implementations keyed by the
concrete runtime type (modelled as an opaque tag of type `T`) of the first
argument.  `B` is the result type of applying an implementation to the
cosmology argument (`A` for z=0 functions, `A → A` for redshift-dependent
ones). -/
structure SDFun (T A B : Type) where
  default : Cosmology A → B
  registry : List (T × (Cosmology A → B))

/-- Registry lookup by exact type tag (first match wins, matching dict
overwrite semantics since `register` conses on the left). -/
def sdLookup [DecidableEq T] : List (T × (Cosmology A → B)) → T → Option (Cosmology A → B)
  | [], _ => none
  | (t, f) :: rest, u => if t = u then some f else sdLookup rest u

/-- `f.register t impl` models `@f.register` on a concrete type `t`. -/
def SDFun.register (f : SDFun T A B) (t : T) (impl : Cosmology A → B) : SDFun T A B :=
  ⟨f.default, (t, impl) :: f.registry⟩

/-- The implementation selected for type tag `t`: the registered
specialization if present, the generic default otherwise. -/
def SDFun.dispatch [DecidableEq T] (f : SDFun T A B) (t : T) : Cosmology A → B :=
  match sdLookup f.registry t with
  | some g => g
  | none => f.default

/-- Calling the generic function on a (type-tagged) cosmology argument:
the implementation selected for the argument's concrete type tag is
applied to the argument. -/
def SDFun.call [DecidableEq T] (f : SDFun T A B) (tc : T × Cosmology A) : B :=
  f.dispatch tc.1 tc.2

/-- The namespace-resolution errors of `cosmology/core/core.py`:
`Unrecognized cosmology input` and `Multiple namespaces for cosmology
inputs`. -/
inductive NsError : Type where
  | unrecognizedInput : NsError
  | multipleNamespaces : NsError
deriving DecidableEq

/-- `get_namespace(*cosmos, api_version=...)` from `cosmology/core/core.py`.
Each argument is modelled by what this function observes of it: `none` for
an argument that fails the `isinstance(x, CosmologyAPI)` check, and
`some n` for a conforming argument whose `__cosmology_namespace__`
(at the given api_version) is the namespace value `n`.  The Python code
builds the set of namespaces of the conforming arguments, raises
`Unrecognized cosmology input` when it is empty, raises
`Multiple namespaces` when it has more than one element, and returns the
single element otherwise; the set is modelled by deduplicating the list. -/
def get_namespace {N : Type} [DecidableEq N] (cosmos : List (Option N)) : Except NsError N :=
  match (cosmos.filterMap id).dedup with
  | [] => .error .unrecognizedInput
  | [n] => .ok n
  | _ :: _ :: _ => .error .multipleNamespaces

namespace Background

/-- `background.scale_factor0`. -/
def scale_factor0 (cosmo : Cosmology A) : A :=
  cosmo.scale_factor0

/-- `background.scale_factor`. -/
def scale_factor (cosmo : Cosmology A) (z : A) : A :=
  cosmo.scale_factor z

/-- `background.omega_total0`. -/
def omega_total0 (cosmo : Cosmology A) : A :=
  cosmo.Otot0

/-- `background.rho_total0` (`@singledispatch`, empty initial registry). -/
def rho_total0 [Mul A] : SDFun T A A :=
  ⟨fun cosmo => cosmo.Otot0 * cosmo.critical_density0, []⟩

/-- `background.omega_total`. -/
def omega_total (cosmo : Cosmology A) (z : A) : A :=
  cosmo.Otot z

/-- `background.rho_total` (`@singledispatch`, empty initial registry). -/
def rho_total [Mul A] : SDFun T A (A → A) :=
  ⟨fun cosmo z => cosmo.Otot z * cosmo.critical_density z, []⟩

/-- `background.critical_density0`. -/
def critical_density0 (cosmo : Cosmology A) : A :=
  cosmo.critical_density0

/-- `background.critical_density`. -/
def critical_density (cosmo : Cosmology A) (z : A) : A :=
  cosmo.critical_density z

/-- `background.age`. -/
def age (cosmo : Cosmology A) (z : A) : A :=
  cosmo.age z

/-- `background.lookback_time`. -/
def lookback_time (cosmo : Cosmology A) (z : A) : A :=
  cosmo.lookback_time z

/-- `background.comoving_distance`. -/
def comoving_distance (cosmo : Cosmology A) (z : A) : A :=
  cosmo.comoving_distance z

/-- `background.comoving_transverse_distance`. -/
def comoving_transverse_distance (cosmo : Cosmology A) (z : A) : A :=
  cosmo.comoving_transverse_distance z

/-- `background.comoving_volume`. -/
def comoving_volume (cosmo : Cosmology A) (z : A) : A :=
  cosmo.comoving_volume z

/-- `background.differential_comoving_volume`. -/
def differential_comoving_volume (cosmo : Cosmology A) (z : A) : A :=
  cosmo.differential_comoving_volume z

/-- `background.angular_diameter_distance`. -/
def angular_diameter_distance (cosmo : Cosmology A) (z : A) : A :=
  cosmo.angular_diameter_distance z

/-- `background.luminosity_distance`. -/
def luminosity_distance (cosmo : Cosmology A) (z : A) : A :=
  cosmo.luminosity_distance z

end Background

namespace Standard

/-- `standard.hubble_parameter0`. -/
def hubble_parameter0 (cosmo : Cosmology A) : A :=
  cosmo.H0

/-- `standard.dimensionless_hubble_parameter0`. -/
def dimensionless_hubble_parameter0 (cosmo : Cosmology A) : A :=
  cosmo.h

/-- `standard.hubble_distance`. -/
def hubble_distance (cosmo : Cosmology A) : A :=
  cosmo.hubble_distance

/-- `standard.hubble_time`. -/
def hubble_time (cosmo : Cosmology A) : A :=
  cosmo.hubble_time

/-- `standard.hubble_parameter`. -/
def hubble_parameter (cosmo : Cosmology A) (z : A) : A :=
  cosmo.H z

/-- `standard.standardized_hubble_function`. -/
def standardized_hubble_function (cosmo : Cosmology A) (z : A) : A :=
  cosmo.efunc z

/-- `standard.inv_standardized_hubble_function`. -/
def inv_standardized_hubble_function (cosmo : Cosmology A) (z : A) : A :=
  cosmo.inv_efunc z

/-- `standard.Tcmb0`. -/
def Tcmb0 (cosmo : Cosmology A) : A :=
  cosmo.Tcmb0

/-- `standard.Tcmb`. -/
def Tcmb (cosmo : Cosmology A) (z : A) : A :=
  cosmo.Tcmb z

/-- `standard.omega_curve0`. -/
def omega_curve0 (cosmo : Cosmology A) : A :=
  cosmo.Ok0

/-- `standard.rho_curve0`.  Note: this is a plain function in
`standard.py`, not decorated with `@singledispatch`. -/
def rho_curve0 [Mul A] (cosmo : Cosmology A) : A :=
  cosmo.Ok0 * cosmo.critical_density0

/-- `standard.omega_curve`. -/
def omega_curve (cosmo : Cosmology A) (z : A) : A :=
  cosmo.Ok z

/-- `standard.rho_curve`.  Plain function, not `@singledispatch`. -/
def rho_curve [Mul A] (cosmo : Cosmology A) (z : A) : A :=
  cosmo.Ok z * cosmo.critical_density z

/-- `standard.omega_matter0`. -/
def omega_matter0 (cosmo : Cosmology A) : A :=
  cosmo.Om0

/-- `standard.rho_matter0`.  Plain function, not `@singledispatch`. -/
def rho_matter0 [Mul A] (cosmo : Cosmology A) : A :=
  cosmo.Om0 * cosmo.critical_density0

/-- `standard.omega_matter`. -/
def omega_matter (cosmo : Cosmology A) (z : A) : A :=
  cosmo.Om z

/-- `standard.rho_matter`.  Plain function, not `@singledispatch`. -/
def rho_matter [Mul A] (cosmo : Cosmology A) (z : A) : A :=
  cosmo.Om z * cosmo.critical_density z

/-- `standard.omega_dm0`. -/
def omega_dm0 (cosmo : Cosmology A) : A :=
  cosmo.Odm0

/-- `standard.rho_dm0` (`@singledispatch`, empty initial registry). -/
def rho_dm0 [Mul A] : SDFun T A A :=
  ⟨fun cosmo => cosmo.Odm0 * cosmo.critical_density0, []⟩

/-- `standard.omega_dm`. -/
def omega_dm (cosmo : Cosmology A) (z : A) : A :=
  cosmo.Odm z

/-- `standard.rho_dm` (`@singledispatch`, empty initial registry). -/
def rho_dm [Mul A] : SDFun T A (A → A) :=
  ⟨fun cosmo z => cosmo.Odm z * cosmo.critical_density z, []⟩

/-- `standard.omega_baryon0`. -/
def omega_baryon0 (cosmo : Cosmology A) : A :=
  cosmo.Ob0

/-- `standard.rho_baryon0` (`@singledispatch`, empty initial registry). -/
def rho_baryon0 [Mul A] : SDFun T A A :=
  ⟨fun cosmo => cosmo.Ob0 * cosmo.critical_density0, []⟩

/-- `standard.omega_baryon`. -/
def omega_baryon (cosmo : Cosmology A) (z : A) : A :=
  cosmo.Ob z

/-- `standard.rho_baryon` (`@singledispatch`, empty initial registry). -/
def rho_baryon [Mul A] : SDFun T A (A → A) :=
  ⟨fun cosmo z => cosmo.Ob z * cosmo.critical_density z, []⟩

/-- `standard.omega_photon0`. -/
def omega_photon0 (cosmo : Cosmology A) : A :=
  cosmo.Ogamma0

/-- `standard.rho_photon0` (`@singledispatch`, empty initial registry). -/
def rho_photon0 [Mul A] : SDFun T A A :=
  ⟨fun cosmo => cosmo.Ogamma0 * cosmo.critical_density0, []⟩

/-- `standard.omega_photon`. -/
def omega_photon (cosmo : Cosmology A) (z : A) : A :=
  cosmo.Ogamma z

/-- `standard.rho_photon` (`@singledispatch`, empty initial registry). -/
def rho_photon [Mul A] : SDFun T A (A → A) :=
  ⟨fun cosmo z => cosmo.Ogamma z * cosmo.critical_density z, []⟩

/-- `standard.omega_neutrino0`. -/
def omega_neutrino0 (cosmo : Cosmology A) : A :=
  cosmo.Onu0

/-- `standard.rho_neutrino0` (`@singledispatch`, empty initial registry). -/
def rho_neutrino0 [Mul A] : SDFun T A A :=
  ⟨fun cosmo => cosmo.Onu0 * cosmo.critical_density0, []⟩

/-- `standard.omega_neutrino`. -/
def omega_neutrino (cosmo : Cosmology A) (z : A) : A :=
  cosmo.Onu z

/-- `standard.rho_neutrino` (`@singledispatch`, empty initial registry). -/
def rho_neutrino [Mul A] : SDFun T A (A → A) :=
  ⟨fun cosmo z => cosmo.Onu z * cosmo.critical_density z, []⟩

/-- `standard.N_eff`. -/
def N_eff (cosmo : Cosmology A) : A :=
  cosmo.Neff

/-- `standard.mass_nu` (the `cast` in the source is a typing no-op). -/
def mass_nu (cosmo : Cosmology A) : List A :=
  cosmo.m_nu

/-- `standard.omega_de0`. -/
def omega_de0 (cosmo : Cosmology A) : A :=
  cosmo.Ode0

/-- `standard.rho_de0` (`@singledispatch`, empty initial registry). -/
def rho_de0 [Mul A] : SDFun T A A :=
  ⟨fun cosmo => cosmo.Ode0 * cosmo.critical_density0, []⟩

/-- `standard.omega_de`. -/
def omega_de (cosmo : Cosmology A) (z : A) : A :=
  cosmo.Ode z

/-- `standard.rho_de` (`@singledispatch`, empty initial registry). -/
def rho_de [Mul A] : SDFun T A (A → A) :=
  ⟨fun cosmo z => cosmo.Ode z * cosmo.critical_density z, []⟩

end Standard

namespace Components

/-- `components.curvature.omega_curve0`. -/
def omega_curve0 (cosmo : Cosmology A) : A :=
  cosmo.Ok0

/-- `components.curvature.rho_curve0` (`@singledispatch`). -/
def rho_curve0 [Mul A] : SDFun T A A :=
  ⟨fun cosmo => cosmo.Ok0 * cosmo.critical_density0, []⟩

/-- `components.curvature.omega_curve`. -/
def omega_curve (cosmo : Cosmology A) (z : A) : A :=
  cosmo.Ok z

/-- `components.curvature.rho_curve` (`@singledispatch`). -/
def rho_curve [Mul A] : SDFun T A (A → A) :=
  ⟨fun cosmo z => cosmo.Ok z * cosmo.critical_density z, []⟩

/-- `components.matter.omega_matter0`.  Defined in
`components/matter.py`, but not imported by `components/__init__.py`. -/
def omega_matter0 (cosmo : Cosmology A) : A :=
  cosmo.Om0

/-- `components.matter.rho_matter0` (`@singledispatch`). -/
def rho_matter0 [Mul A] : SDFun T A A :=
  ⟨fun cosmo => cosmo.Om0 * cosmo.critical_density0, []⟩

/-- `components.matter.omega_matter`. -/
def omega_matter (cosmo : Cosmology A) (z : A) : A :=
  cosmo.Om z

/-- `components.matter.rho_matter` (`@singledispatch`). -/
def rho_matter [Mul A] : SDFun T A (A → A) :=
  ⟨fun cosmo z => cosmo.Om z * cosmo.critical_density z, []⟩

/-- `components.matter_cdm.omega_dm0`. -/
def omega_dm0 (cosmo : Cosmology A) : A :=
  cosmo.Odm0

/-- `components.matter_cdm.rho_dm0` (`@singledispatch`). -/
def rho_dm0 [Mul A] : SDFun T A A :=
  ⟨fun cosmo => cosmo.Odm0 * cosmo.critical_density0, []⟩

/-- `components.matter_cdm.omega_dm`. -/
def omega_dm (cosmo : Cosmology A) (z : A) : A :=
  cosmo.Odm z

/-- `components.matter_cdm.rho_dm` (`@singledispatch`). -/
def rho_dm [Mul A] : SDFun T A (A → A) :=
  ⟨fun cosmo z => cosmo.Odm z * cosmo.critical_density z, []⟩

/-- `components.matter_baryon.omega_baryon0`. -/
def omega_baryon0 (cosmo : Cosmology A) : A :=
  cosmo.Ob0

/-- `components.matter_baryon.rho_baryon0` (`@singledispatch`). -/
def rho_baryon0 [Mul A] : SDFun T A A :=
  ⟨fun cosmo => cosmo.Ob0 * cosmo.critical_density0, []⟩

/-- `components.matter_baryon.omega_baryon`. -/
def omega_baryon (cosmo : Cosmology A) (z : A) : A :=
  cosmo.Ob z

/-- `components.matter_baryon.rho_baryon` (`@singledispatch`). -/
def rho_baryon [Mul A] : SDFun T A (A → A) :=
  ⟨fun cosmo z => cosmo.Ob z * cosmo.critical_density z, []⟩

/-- `components.photon.omega_photon0`. -/
def omega_photon0 (cosmo : Cosmology A) : A :=
  cosmo.Ogamma0

/-- `components.photon.rho_photon0` (`@singledispatch`). -/
def rho_photon0 [Mul A] : SDFun T A A :=
  ⟨fun cosmo => cosmo.Ogamma0 * cosmo.critical_density0, []⟩

/-- `components.photon.omega_photon`. -/
def omega_photon (cosmo : Cosmology A) (z : A) : A :=
  cosmo.Ogamma z

/-- `components.photon.rho_photon` (`@singledispatch`). -/
def rho_photon [Mul A] : SDFun T A (A → A) :=
  ⟨fun cosmo z => cosmo.Ogamma z * cosmo.critical_density z, []⟩

/-- `components.neutrino.omega_neutrino0`. -/
def omega_neutrino0 (cosmo : Cosmology A) : A :=
  cosmo.Onu0

/-- `components.neutrino.rho_neutrino0` (`@singledispatch`). -/
def rho_neutrino0 [Mul A] : SDFun T A A :=
  ⟨fun cosmo => cosmo.Onu0 * cosmo.critical_density0, []⟩

/-- `components.neutrino.omega_neutrino`. -/
def omega_neutrino (cosmo : Cosmology A) (z : A) : A :=
  cosmo.Onu z

/-- `components.neutrino.rho_neutrino` (`@singledispatch`). -/
def rho_neutrino [Mul A] : SDFun T A (A → A) :=
  ⟨fun cosmo z => cosmo.Onu z * cosmo.critical_density z, []⟩

/-- `components.neutrino.N_eff`. -/
def N_eff (cosmo : Cosmology A) : A :=
  cosmo.Neff

/-- `components.neutrino.mass_nu`. -/
def mass_nu (cosmo : Cosmology A) : List A :=
  cosmo.m_nu

/-- `components.de.omega_de0`. -/
def omega_de0 (cosmo : Cosmology A) : A :=
  cosmo.Ode0

/-- `components.de.rho_de0` (`@singledispatch`). -/
def rho_de0 [Mul A] : SDFun T A A :=
  ⟨fun cosmo => cosmo.Ode0 * cosmo.critical_density0, []⟩

/-- `components.de.omega_de`. -/
def omega_de (cosmo : Cosmology A) (z : A) : A :=
  cosmo.Ode z

/-- `components.de.rho_de` (`@singledispatch`). -/
def rho_de [Mul A] : SDFun T A (A → A) :=
  ⟨fun cosmo z => cosmo.Ode z * cosmo.critical_density z, []⟩

end Components

/-- The module-level rho functions of `background.py`, in definition
order. -/
def backgroundRhoFunctions : List String :=
  ["rho_total0", "rho_total"]

/-- The rho functions of `background.py` that carry the
`@singledispatch` decorator in the source. -/
def backgroundDispatchable : List String :=
  ["rho_total0", "rho_total"]

/-- The module-level rho functions of `standard.py`, in definition
order. -/
def standardRhoFunctions : List String :=
  ["rho_curve0", "rho_curve", "rho_matter0", "rho_matter",
   "rho_dm0", "rho_dm", "rho_baryon0", "rho_baryon",
   "rho_photon0", "rho_photon", "rho_neutrino0", "rho_neutrino",
   "rho_de0", "rho_de"]

/-- The rho functions of `standard.py` that carry the `@singledispatch`
decorator in the source: all of them except `rho_curve0`, `rho_curve`,
`rho_matter0` and `rho_matter`, which are plain functions. -/
def standardDispatchable : List String :=
  ["rho_dm0", "rho_dm", "rho_baryon0", "rho_baryon",
   "rho_photon0", "rho_photon", "rho_neutrino0", "rho_neutrino",
   "rho_de0", "rho_de"]

/-- The module-level rho functions of the `components` modules
(curvature, matter, matter_cdm, matter_baryon, photon, neutrino, de). -/
def componentsRhoFunctions : List String :=
  ["rho_curve0", "rho_curve", "rho_matter0", "rho_matter",
   "rho_dm0", "rho_dm", "rho_baryon0", "rho_baryon",
   "rho_photon0", "rho_photon", "rho_neutrino0", "rho_neutrino",
   "rho_de0", "rho_de"]

/-- The rho functions of the `components` modules that carry the
`@singledispatch` decorator in the source: all of them. -/
def componentsDispatchable : List String :=
  ["rho_curve0", "rho_curve", "rho_matter0", "rho_matter",
   "rho_dm0", "rho_dm", "rho_baryon0", "rho_baryon",
   "rho_photon0", "rho_photon", "rho_neutrino0", "rho_neutrino",
   "rho_de0", "rho_de"]

/-- The module-level mutable dispatch state relevant to the duplicated
`rho_dm0`: the registry-carrying function object of `standard.py` and the
one of `components/matter_cdm.py`, which are two distinct module-level
objects in the source. -/
structure DmStatePair (T A : Type) where
  std_rho_dm0 : SDFun T A A
  comp_rho_dm0 : SDFun T A A

/-- The state at library load: both `rho_dm0` dispatchers have empty
registries and the generic default. -/
def initialDmState [Mul A] : DmStatePair T A :=
  ⟨Standard.rho_dm0, Components.rho_dm0⟩

/-- `standard.rho_dm0.register(t, impl)`: mutates only the `standard`
module's dispatcher. -/
def registerStdDm0 [Mul A] (w : DmStatePair T A) (t : T)
    (impl : Cosmology A → A) : DmStatePair T A :=
  ⟨w.std_rho_dm0.register t impl, w.comp_rho_dm0⟩

/-- A concrete cosmology over `Int`, used to evaluate the embedding at
explicit inputs. -/
def intCosmo : Cosmology Int :=
  ⟨10, fun z => z + 1, 11, fun z => z + 2, 3, fun z => z + 3,
   fun z => z + 4, fun z => z + 5, fun z => z + 6, fun z => z + 7,
   fun z => z + 8, fun z => z + 9, fun z => z + 10, fun z => z + 11,
   12, 13, 14, 15, fun z => z + 12, fun z => z + 13, fun z => z + 14,
   16, fun z => z + 15, 2, fun z => z + 16, 4, fun z => z + 17,
   5, fun z => z + 18, 6, fun z => z + 19, 7, fun z => z + 20,
   8, fun z => z + 21, 9, fun z => z + 22, 17, [1, 2, 3]⟩

/-- The `__all__` export list of `components/__init__.py`, verbatim and
in source order. -/
def componentsPackageAll : List String :=
  ["omega_curve0", "omega_curve", "rho_curve0", "rho_curve",
   "omega_dm", "omega_dm0", "rho_dm", "rho_dm0",
   "omega_baryon", "omega_baryon0", "rho_baryon", "rho_baryon0",
   "omega_photon", "omega_photon0", "rho_photon", "rho_photon0",
   "omega_neutrino", "omega_neutrino0", "rho_neutrino", "rho_neutrino0",
   "N_eff", "mass_nu",
   "omega_de", "omega_de0", "rho_de", "rho_de0"]

/-- The uniform four-function surface the spec requires per species
token `s` (as the tokens appear in the source's function names):
`omega_<s>0`, `omega_<s>`, `rho_<s>0`, `rho_<s>`. -/
def speciesFunNames (s : String) : List String :=
  ["omega_" ++ s ++ "0", "omega_" ++ s, "rho_" ++ s ++ "0", "rho_" ++ s]

/-- The seven species classes of the spec, by the token each uses in the
source's function names: curvature, matter (aggregate), baryons, cold
dark matter, photons, neutrinos, dark energy. -/
def sevenSpeciesTokens : List String :=
  ["curve", "matter", "baryon", "dm", "photon", "neutrino", "de"]

/-- The module-level public functions defined by `components/matter.py`,
in definition order. -/
def componentsMatterModuleDefs : List String :=
  ["omega_matter0", "rho_matter0", "omega_matter", "rho_matter"]

/-- A cosmology object with fallible accessors: the same accessors as
`Cosmology`, but each attribute read or method call may raise (an error
of type `E`) instead of producing an array.  This refines the pure model
for the error-propagation contract. -/
structure FCosmology (E A : Type) where
  scale_factor0 : Except E A
  scale_factor : A → Except E A
  Otot0 : Except E A
  Otot : A → Except E A
  critical_density0 : Except E A
  critical_density : A → Except E A
  age : A → Except E A
  lookback_time : A → Except E A
  comoving_distance : A → Except E A
  comoving_transverse_distance : A → Except E A
  angular_diameter_distance : A → Except E A
  luminosity_distance : A → Except E A
  comoving_volume : A → Except E A
  differential_comoving_volume : A → Except E A
  H0 : Except E A
  h : Except E A
  hubble_distance : Except E A
  hubble_time : Except E A
  H : A → Except E A
  efunc : A → Except E A
  inv_efunc : A → Except E A
  Tcmb0 : Except E A
  Tcmb : A → Except E A
  Ok0 : Except E A
  Ok : A → Except E A
  Om0 : Except E A
  Om : A → Except E A
  Ob0 : Except E A
  Ob : A → Except E A
  Odm0 : Except E A
  Odm : A → Except E A
  Ogamma0 : Except E A
  Ogamma : A → Except E A
  Onu0 : Except E A
  Onu : A → Except E A
  Ode0 : Except E A
  Ode : A → Except E A
  Neff : Except E A
  m_nu : Except E (List A)

variable {E : Type}

/-- Left-to-right evaluation of the product `x * y` of two fallible
accessor results, as Python evaluates `a.f(...) * a.g(...)`: a raise in
either factor aborts the product and propagates unchanged. -/
def exProd [Mul A] (x y : Except E A) : Except E A :=
  match x with
  | .error e => .error e
  | .ok a =>
    match y with
    | .error e => .error e
    | .ok b => .ok (a * b)

/-- A concrete fallible cosmology over `Int` whose `Otot0` attribute read
and `age` method raise error `7`, every other accessor succeeding. -/
def errCosmo : FCosmology Nat Int :=
  ⟨.ok 10, fun z => .ok (z + 1), .error 7, fun z => .ok (z + 2), .ok 3,
   fun z => .ok (z + 3), fun _ => .error 7, fun z => .ok (z + 5),
   fun z => .ok (z + 6), fun z => .ok (z + 7), fun z => .ok (z + 8),
   fun z => .ok (z + 9), fun z => .ok (z + 10), fun z => .ok (z + 11),
   .ok 12, .ok 13, .ok 14, .ok 15, fun z => .ok (z + 12),
   fun z => .ok (z + 13), fun z => .ok (z + 14), .ok 16,
   fun z => .ok (z + 15), .ok 2, fun z => .ok (z + 16), .ok 4,
   fun z => .ok (z + 17), .ok 5, fun z => .ok (z + 18), .ok 6,
   fun z => .ok (z + 19), .ok 7, fun z => .ok (z + 20), .ok 8,
   fun z => .ok (z + 21), .ok 9, fun z => .ok (z + 22), .ok 17,
   .ok [1, 2, 3]⟩

namespace FBackground

/-- `background.scale_factor0` over a fallible cosmology. -/
def scale_factor0 (cosmo : FCosmology E A) : Except E A :=
  cosmo.scale_factor0

/-- `background.scale_factor` over a fallible cosmology. -/
def scale_factor (cosmo : FCosmology E A) (z : A) : Except E A :=
  cosmo.scale_factor z

/-- `background.omega_total0` over a fallible cosmology. -/
def omega_total0 (cosmo : FCosmology E A) : Except E A :=
  cosmo.Otot0

/-- `background.rho_total0` (generic default) over a fallible cosmology. -/
def rho_total0 [Mul A] (cosmo : FCosmology E A) : Except E A :=
  exProd cosmo.Otot0 cosmo.critical_density0

/-- `background.omega_total` over a fallible cosmology. -/
def omega_total (cosmo : FCosmology E A) (z : A) : Except E A :=
  cosmo.Otot z

/-- `background.rho_total` (generic default) over a fallible cosmology. -/
def rho_total [Mul A] (cosmo : FCosmology E A) (z : A) : Except E A :=
  exProd (cosmo.Otot z) (cosmo.critical_density z)

/-- `background.critical_density0` over a fallible cosmology. -/
def critical_density0 (cosmo : FCosmology E A) : Except E A :=
  cosmo.critical_density0

/-- `background.critical_density` over a fallible cosmology. -/
def critical_density (cosmo : FCosmology E A) (z : A) : Except E A :=
  cosmo.critical_density z

/-- `background.age` over a fallible cosmology. -/
def age (cosmo : FCosmology E A) (z : A) : Except E A :=
  cosmo.age z

/-- `background.lookback_time` over a fallible cosmology. -/
def lookback_time (cosmo : FCosmology E A) (z : A) : Except E A :=
  cosmo.lookback_time z

/-- `background.comoving_distance` over a fallible cosmology. -/
def comoving_distance (cosmo : FCosmology E A) (z : A) : Except E A :=
  cosmo.comoving_distance z

/-- `background.comoving_transverse_distance` over a fallible cosmology. -/
def comoving_transverse_distance (cosmo : FCosmology E A) (z : A) : Except E A :=
  cosmo.comoving_transverse_distance z

/-- `background.angular_diameter_distance` over a fallible cosmology. -/
def angular_diameter_distance (cosmo : FCosmology E A) (z : A) : Except E A :=
  cosmo.angular_diameter_distance z

/-- `background.luminosity_distance` over a fallible cosmology. -/
def luminosity_distance (cosmo : FCosmology E A) (z : A) : Except E A :=
  cosmo.luminosity_distance z

/-- `background.comoving_volume` over a fallible cosmology. -/
def comoving_volume (cosmo : FCosmology E A) (z : A) : Except E A :=
  cosmo.comoving_volume z

/-- `background.differential_comoving_volume` over a fallible cosmology. -/
def differential_comoving_volume (cosmo : FCosmology E A) (z : A) : Except E A :=
  cosmo.differential_comoving_volume z

end FBackground

namespace FStandard

/-- `standard.hubble_parameter0` over a fallible cosmology. -/
def hubble_parameter0 (cosmo : FCosmology E A) : Except E A :=
  cosmo.H0

/-- `standard.dimensionless_hubble_parameter0` over a fallible cosmology. -/
def dimensionless_hubble_parameter0 (cosmo : FCosmology E A) : Except E A :=
  cosmo.h

/-- `standard.hubble_distance` over a fallible cosmology. -/
def hubble_distance (cosmo : FCosmology E A) : Except E A :=
  cosmo.hubble_distance

/-- `standard.hubble_time` over a fallible cosmology. -/
def hubble_time (cosmo : FCosmology E A) : Except E A :=
  cosmo.hubble_time

/-- `standard.hubble_parameter` over a fallible cosmology. -/
def hubble_parameter (cosmo : FCosmology E A) (z : A) : Except E A :=
  cosmo.H z

/-- `standard.standardized_hubble_function` over a fallible cosmology. -/
def standardized_hubble_function (cosmo : FCosmology E A) (z : A) : Except E A :=
  cosmo.efunc z

/-- `standard.inv_standardized_hubble_function` over a fallible cosmology. -/
def inv_standardized_hubble_function (cosmo : FCosmology E A) (z : A) : Except E A :=
  cosmo.inv_efunc z

/-- `standard.Tcmb0` over a fallible cosmology. -/
def Tcmb0 (cosmo : FCosmology E A) : Except E A :=
  cosmo.Tcmb0

/-- `standard.Tcmb` over a fallible cosmology. -/
def Tcmb (cosmo : FCosmology E A) (z : A) : Except E A :=
  cosmo.Tcmb z

/-- `standard.omega_curve0` over a fallible cosmology. -/
def omega_curve0 (cosmo : FCosmology E A) : Except E A :=
  cosmo.Ok0

/-- `standard.rho_curve0` over a fallible cosmology. -/
def rho_curve0 [Mul A] (cosmo : FCosmology E A) : Except E A :=
  exProd cosmo.Ok0 cosmo.critical_density0

/-- `standard.omega_curve` over a fallible cosmology. -/
def omega_curve (cosmo : FCosmology E A) (z : A) : Except E A :=
  cosmo.Ok z

/-- `standard.rho_curve` over a fallible cosmology. -/
def rho_curve [Mul A] (cosmo : FCosmology E A) (z : A) : Except E A :=
  exProd (cosmo.Ok z) (cosmo.critical_density z)

/-- `standard.omega_matter0` over a fallible cosmology. -/
def omega_matter0 (cosmo : FCosmology E A) : Except E A :=
  cosmo.Om0

/-- `standard.rho_matter0` over a fallible cosmology. -/
def rho_matter0 [Mul A] (cosmo : FCosmology E A) : Except E A :=
  exProd cosmo.Om0 cosmo.critical_density0

/-- `standard.omega_matter` over a fallible cosmology. -/
def omega_matter (cosmo : FCosmology E A) (z : A) : Except E A :=
  cosmo.Om z

/-- `standard.rho_matter` over a fallible cosmology. -/
def rho_matter [Mul A] (cosmo : FCosmology E A) (z : A) : Except E A :=
  exProd (cosmo.Om z) (cosmo.critical_density z)

/-- `standard.omega_dm0` over a fallible cosmology. -/
def omega_dm0 (cosmo : FCosmology E A) : Except E A :=
  cosmo.Odm0

/-- `standard.rho_dm0` (generic default) over a fallible cosmology. -/
def rho_dm0 [Mul A] (cosmo : FCosmology E A) : Except E A :=
  exProd cosmo.Odm0 cosmo.critical_density0

/-- `standard.omega_dm` over a fallible cosmology. -/
def omega_dm (cosmo : FCosmology E A) (z : A) : Except E A :=
  cosmo.Odm z

/-- `standard.rho_dm` (generic default) over a fallible cosmology. -/
def rho_dm [Mul A] (cosmo : FCosmology E A) (z : A) : Except E A :=
  exProd (cosmo.Odm z) (cosmo.critical_density z)

/-- `standard.omega_baryon0` over a fallible cosmology. -/
def omega_baryon0 (cosmo : FCosmology E A) : Except E A :=
  cosmo.Ob0

/-- `standard.rho_baryon0` (generic default) over a fallible cosmology. -/
def rho_baryon0 [Mul A] (cosmo : FCosmology E A) : Except E A :=
  exProd cosmo.Ob0 cosmo.critical_density0

/-- `standard.omega_baryon` over a fallible cosmology. -/
def omega_baryon (cosmo : FCosmology E A) (z : A) : Except E A :=
  cosmo.Ob z

/-- `standard.rho_baryon` (generic default) over a fallible cosmology. -/
def rho_baryon [Mul A] (cosmo : FCosmology E A) (z : A) : Except E A :=
  exProd (cosmo.Ob z) (cosmo.critical_density z)

/-- `standard.omega_photon0` over a fallible cosmology. -/
def omega_photon0 (cosmo : FCosmology E A) : Except E A :=
  cosmo.Ogamma0

/-- `standard.rho_photon0` (generic default) over a fallible cosmology. -/
def rho_photon0 [Mul A] (cosmo : FCosmology E A) : Except E A :=
  exProd cosmo.Ogamma0 cosmo.critical_density0

/-- `standard.omega_photon` over a fallible cosmology. -/
def omega_photon (cosmo : FCosmology E A) (z : A) : Except E A :=
  cosmo.Ogamma z

/-- `standard.rho_photon` (generic default) over a fallible cosmology. -/
def rho_photon [Mul A] (cosmo : FCosmology E A) (z : A) : Except E A :=
  exProd (cosmo.Ogamma z) (cosmo.critical_density z)

/-- `standard.omega_neutrino0` over a fallible cosmology. -/
def omega_neutrino0 (cosmo : FCosmology E A) : Except E A :=
  cosmo.Onu0

/-- `standard.rho_neutrino0` (generic default) over a fallible cosmology. -/
def rho_neutrino0 [Mul A] (cosmo : FCosmology E A) : Except E A :=
  exProd cosmo.Onu0 cosmo.critical_density0

/-- `standard.omega_neutrino` over a fallible cosmology. -/
def omega_neutrino (cosmo : FCosmology E A) (z : A) : Except E A :=
  cosmo.Onu z

/-- `standard.rho_neutrino` (generic default) over a fallible cosmology. -/
def rho_neutrino [Mul A] (cosmo : FCosmology E A) (z : A) : Except E A :=
  exProd (cosmo.Onu z) (cosmo.critical_density z)

/-- `standard.N_eff` over a fallible cosmology. -/
def N_eff (cosmo : FCosmology E A) : Except E A :=
  cosmo.Neff

/-- `standard.mass_nu` over a fallible cosmology. -/
def mass_nu (cosmo : FCosmology E A) : Except E (List A) :=
  cosmo.m_nu

/-- `standard.omega_de0` over a fallible cosmology. -/
def omega_de0 (cosmo : FCosmology E A) : Except E A :=
  cosmo.Ode0

/-- `standard.rho_de0` (generic default) over a fallible cosmology. -/
def rho_de0 [Mul A] (cosmo : FCosmology E A) : Except E A :=
  exProd cosmo.Ode0 cosmo.critical_density0

/-- `standard.omega_de` over a fallible cosmology. -/
def omega_de (cosmo : FCosmology E A) (z : A) : Except E A :=
  cosmo.Ode z

/-- `standard.rho_de` (generic default) over a fallible cosmology. -/
def rho_de [Mul A] (cosmo : FCosmology E A) (z : A) : Except E A :=
  exProd (cosmo.Ode z) (cosmo.critical_density z)

end FStandard

namespace FComponents

/-- `components.curvature.omega_curve0` over a fallible cosmology. -/
def omega_curve0 (cosmo : FCosmology E A) : Except E A :=
  cosmo.Ok0

/-- `components.curvature.rho_curve0` (generic default), fallible. -/
def rho_curve0 [Mul A] (cosmo : FCosmology E A) : Except E A :=
  exProd cosmo.Ok0 cosmo.critical_density0

/-- `components.curvature.omega_curve` over a fallible cosmology. -/
def omega_curve (cosmo : FCosmology E A) (z : A) : Except E A :=
  cosmo.Ok z

/-- `components.curvature.rho_curve` (generic default), fallible. -/
def rho_curve [Mul A] (cosmo : FCosmology E A) (z : A) : Except E A :=
  exProd (cosmo.Ok z) (cosmo.critical_density z)

/-- `components.matter.omega_matter0` over a fallible cosmology. -/
def omega_matter0 (cosmo : FCosmology E A) : Except E A :=
  cosmo.Om0

/-- `components.matter.rho_matter0` (generic default), fallible. -/
def rho_matter0 [Mul A] (cosmo : FCosmology E A) : Except E A :=
  exProd cosmo.Om0 cosmo.critical_density0

/-- `components.matter.omega_matter` over a fallible cosmology. -/
def omega_matter (cosmo : FCosmology E A) (z : A) : Except E A :=
  cosmo.Om z

/-- `components.matter.rho_matter` (generic default), fallible. -/
def rho_matter [Mul A] (cosmo : FCosmology E A) (z : A) : Except E A :=
  exProd (cosmo.Om z) (cosmo.critical_density z)

/-- `components.matter_cdm.omega_dm0` over a fallible cosmology. -/
def omega_dm0 (cosmo : FCosmology E A) : Except E A :=
  cosmo.Odm0

/-- `components.matter_cdm.rho_dm0` (generic default), fallible. -/
def rho_dm0 [Mul A] (cosmo : FCosmology E A) : Except E A :=
  exProd cosmo.Odm0 cosmo.critical_density0

/-- `components.matter_cdm.omega_dm` over a fallible cosmology. -/
def omega_dm (cosmo : FCosmology E A) (z : A) : Except E A :=
  cosmo.Odm z

/-- `components.matter_cdm.rho_dm` (generic default), fallible. -/
def rho_dm [Mul A] (cosmo : FCosmology E A) (z : A) : Except E A :=
  exProd (cosmo.Odm z) (cosmo.critical_density z)

/-- `components.matter_baryon.omega_baryon0` over a fallible cosmology. -/
def omega_baryon0 (cosmo : FCosmology E A) : Except E A :=
  cosmo.Ob0

/-- `components.matter_baryon.rho_baryon0` (generic default), fallible. -/
def rho_baryon0 [Mul A] (cosmo : FCosmology E A) : Except E A :=
  exProd cosmo.Ob0 cosmo.critical_density0

/-- `components.matter_baryon.omega_baryon` over a fallible cosmology. -/
def omega_baryon (cosmo : FCosmology E A) (z : A) : Except E A :=
  cosmo.Ob z

/-- `components.matter_baryon.rho_baryon` (generic default), fallible. -/
def rho_baryon [Mul A] (cosmo : FCosmology E A) (z : A) : Except E A :=
  exProd (cosmo.Ob z) (cosmo.critical_density z)

/-- `components.photon.omega_photon0` over a fallible cosmology. -/
def omega_photon0 (cosmo : FCosmology E A) : Except E A :=
  cosmo.Ogamma0

/-- `components.photon.rho_photon0` (generic default), fallible. -/
def rho_photon0 [Mul A] (cosmo : FCosmology E A) : Except E A :=
  exProd cosmo.Ogamma0 cosmo.critical_density0

/-- `components.photon.omega_photon` over a fallible cosmology. -/
def omega_photon (cosmo : FCosmology E A) (z : A) : Except E A :=
  cosmo.Ogamma z

/-- `components.photon.rho_photon` (generic default), fallible. -/
def rho_photon [Mul A] (cosmo : FCosmology E A) (z : A) : Except E A :=
  exProd (cosmo.Ogamma z) (cosmo.critical_density z)

/-- `components.neutrino.omega_neutrino0` over a fallible cosmology. -/
def omega_neutrino0 (cosmo : FCosmology E A) : Except E A :=
  cosmo.Onu0

/-- `components.neutrino.rho_neutrino0` (generic default), fallible. -/
def rho_neutrino0 [Mul A] (cosmo : FCosmology E A) : Except E A :=
  exProd cosmo.Onu0 cosmo.critical_density0

/-- `components.neutrino.omega_neutrino` over a fallible cosmology. -/
def omega_neutrino (cosmo : FCosmology E A) (z : A) : Except E A :=
  cosmo.Onu z

/-- `components.neutrino.rho_neutrino` (generic default), fallible. -/
def rho_neutrino [Mul A] (cosmo : FCosmology E A) (z : A) : Except E A :=
  exProd (cosmo.Onu z) (cosmo.critical_density z)

/-- `components.neutrino.N_eff` over a fallible cosmology. -/
def N_eff (cosmo : FCosmology E A) : Except E A :=
  cosmo.Neff

/-- `components.neutrino.mass_nu` over a fallible cosmology. -/
def mass_nu (cosmo : FCosmology E A) : Except E (List A) :=
  cosmo.m_nu

/-- `components.de.omega_de0` over a fallible cosmology. -/
def omega_de0 (cosmo : FCosmology E A) : Except E A :=
  cosmo.Ode0

/-- `components.de.rho_de0` (generic default), fallible. -/
def rho_de0 [Mul A] (cosmo : FCosmology E A) : Except E A :=
  exProd cosmo.Ode0 cosmo.critical_density0

/-- `components.de.omega_de` over a fallible cosmology. -/
def omega_de (cosmo : FCosmology E A) (z : A) : Except E A :=
  cosmo.Ode z

/-- `components.de.rho_de` (generic default), fallible. -/
def rho_de [Mul A] (cosmo : FCosmology E A) (z : A) : Except E A :=
  exProd (cosmo.Ode z) (cosmo.critical_density z)

end FComponents

/-- Registering a specialization for type tag `t` makes every call on an
argument tagged `t` run the specialization. -/
theorem sd_register_call_self [DecidableEq T] (f : SDFun T A B) (t : T)
    (impl : Cosmology A → B) (c : Cosmology A) :
    (f.register t impl).call (t, c) = impl c := by
  simp [SDFun.call, SDFun.dispatch, SDFun.register, sdLookup]

/-- Registering a specialization for type tag `t` does not affect calls on
arguments of a different, unregistered type tag: they run the default. -/
theorem sd_register_call_other [DecidableEq T] (f : SDFun T A B) (t u : T)
    (impl : Cosmology A → B) (c : Cosmology A) (hne : t ≠ u)
    (hnone : sdLookup f.registry u = none) :
    (f.register t impl).call (u, c) = f.default c := by
  simp [SDFun.call, SDFun.dispatch, SDFun.register, sdLookup, hne, hnone]

/-- Exactly one implementation is selected per call, determined by the
type tag alone: the registered one when the registry has an entry for the
tag, the generic default otherwise. -/
theorem sd_call_dichotomy [DecidableEq T] (f : SDFun T A B) (u : T)
    (c : Cosmology A) :
    (∀ g, sdLookup f.registry u = some g → f.call (u, c) = g c)
    ∧ (sdLookup f.registry u = none → f.call (u, c) = f.default c) := by
  constructor
  · intro g hg
    simp [SDFun.call, SDFun.dispatch, hg]
  · intro hn
    simp [SDFun.call, SDFun.dispatch, hn]

/-- A raise in either factor of the generic Ω × ρ_crit product
propagates unchanged, a raise in the left factor pre-empting the right
one; conversely, the product only raises an error one of its factors
raised. -/
theorem exProd_error_prop [Mul A] (x y : Except E A) (e : E) :
    (x = .error e → exProd x y = .error e)
    ∧ (∀ a, x = .ok a → y = .error e → exProd x y = .error e)
    ∧ (exProd x y = .error e → x = .error e ∨ y = .error e) := by
  refine ⟨fun hx => ?_, fun a hx hy => ?_, fun hp => ?_⟩
  · subst hx
    rfl
  · subst hx
    subst hy
    rfl
  · cases x with
    | error e1 =>
      simp [exProd] at hp
      exact Or.inl (by rw [hp])
    | ok a =>
      cases y with
      | error e2 =>
        simp [exProd] at hp
        exact Or.inr (by rw [hp])
      | ok b =>
        simp [exProd] at hp

section Claims

variable {N : Type}

/-- C1: for every species X in {curvature, matter, baryon, cold dark
matter, photon, neutrino, dark energy}, every cosmology object `c`, every
redshift `z` (and any concrete type tag `t` for the dispatched functions,
whose initial registries are empty, so the call runs the default), the
default implementations satisfy the matching-epoch law
ρ_X0(c) = Ω_X0(c) · critical_density0(c) and
ρ_X(c, z) = Ω_X(c, z) · critical_density(c, z), with Ω and critical
density read from the cosmology's own accessors.  Both the `standard`
module's and the `components` modules' versions are covered. -/
theorem c1_matching_epoch_law [DecidableEq T] [Mul A]
    (t : T) (c : Cosmology A) (z : A) :
    (Standard.rho_curve0 c = c.Ok0 * c.critical_density0
      ∧ Standard.rho_curve c z = c.Ok z * c.critical_density z
      ∧ Standard.rho_matter0 c = c.Om0 * c.critical_density0
      ∧ Standard.rho_matter c z = c.Om z * c.critical_density z
      ∧ Standard.rho_baryon0.call (t, c) = c.Ob0 * c.critical_density0
      ∧ Standard.rho_baryon.call (t, c) z = c.Ob z * c.critical_density z
      ∧ Standard.rho_dm0.call (t, c) = c.Odm0 * c.critical_density0
      ∧ Standard.rho_dm.call (t, c) z = c.Odm z * c.critical_density z
      ∧ Standard.rho_photon0.call (t, c) = c.Ogamma0 * c.critical_density0
      ∧ Standard.rho_photon.call (t, c) z = c.Ogamma z * c.critical_density z
      ∧ Standard.rho_neutrino0.call (t, c) = c.Onu0 * c.critical_density0
      ∧ Standard.rho_neutrino.call (t, c) z = c.Onu z * c.critical_density z
      ∧ Standard.rho_de0.call (t, c) = c.Ode0 * c.critical_density0
      ∧ Standard.rho_de.call (t, c) z = c.Ode z * c.critical_density z)
    ∧ (Components.rho_curve0.call (t, c) = c.Ok0 * c.critical_density0
      ∧ Components.rho_curve.call (t, c) z = c.Ok z * c.critical_density z
      ∧ Components.rho_matter0.call (t, c) = c.Om0 * c.critical_density0
      ∧ Components.rho_matter.call (t, c) z = c.Om z * c.critical_density z
      ∧ Components.rho_baryon0.call (t, c) = c.Ob0 * c.critical_density0
      ∧ Components.rho_baryon.call (t, c) z = c.Ob z * c.critical_density z
      ∧ Components.rho_dm0.call (t, c) = c.Odm0 * c.critical_density0
      ∧ Components.rho_dm.call (t, c) z = c.Odm z * c.critical_density z
      ∧ Components.rho_photon0.call (t, c) = c.Ogamma0 * c.critical_density0
      ∧ Components.rho_photon.call (t, c) z = c.Ogamma z * c.critical_density z
      ∧ Components.rho_neutrino0.call (t, c) = c.Onu0 * c.critical_density0
      ∧ Components.rho_neutrino.call (t, c) z = c.Onu z * c.critical_density z
      ∧ Components.rho_de0.call (t, c) = c.Ode0 * c.critical_density0
      ∧ Components.rho_de.call (t, c) z = c.Ode z * c.critical_density z) := by
  exact ⟨⟨rfl, rfl, rfl, rfl, rfl, rfl, rfl, rfl, rfl, rfl, rfl, rfl, rfl, rfl⟩,
    ⟨rfl, rfl, rfl, rfl, rfl, rfl, rfl, rfl, rfl, rfl, rfl, rfl, rfl, rfl⟩⟩

/-- C3: every direct-read derived-quantity function is an exact
pass-through of the underlying accessor of the cosmology object, with no
transformation: all 14 background functions, the Hubble family, the CMB
temperatures, every per-species Ω (in both the `standard` module and the
`components` modules), `N_eff` and `mass_nu` return exactly the accessor's
value. -/
theorem c3_direct_reads_pass_through (c : Cosmology A) (z : A) :
    (Background.scale_factor0 c = c.scale_factor0
      ∧ Background.scale_factor c z = c.scale_factor z
      ∧ Background.omega_total0 c = c.Otot0
      ∧ Background.omega_total c z = c.Otot z
      ∧ Background.critical_density0 c = c.critical_density0
      ∧ Background.critical_density c z = c.critical_density z
      ∧ Background.age c z = c.age z
      ∧ Background.lookback_time c z = c.lookback_time z
      ∧ Background.comoving_distance c z = c.comoving_distance z
      ∧ Background.comoving_transverse_distance c z = c.comoving_transverse_distance z
      ∧ Background.angular_diameter_distance c z = c.angular_diameter_distance z
      ∧ Background.luminosity_distance c z = c.luminosity_distance z
      ∧ Background.comoving_volume c z = c.comoving_volume z
      ∧ Background.differential_comoving_volume c z = c.differential_comoving_volume z)
    ∧ (Standard.hubble_parameter0 c = c.H0
      ∧ Standard.dimensionless_hubble_parameter0 c = c.h
      ∧ Standard.hubble_distance c = c.hubble_distance
      ∧ Standard.hubble_time c = c.hubble_time
      ∧ Standard.hubble_parameter c z = c.H z
      ∧ Standard.standardized_hubble_function c z = c.efunc z
      ∧ Standard.inv_standardized_hubble_function c z = c.inv_efunc z
      ∧ Standard.Tcmb0 c = c.Tcmb0
      ∧ Standard.Tcmb c z = c.Tcmb z
      ∧ Standard.N_eff c = c.Neff
      ∧ Standard.mass_nu c = c.m_nu)
    ∧ (Standard.omega_curve0 c = c.Ok0
      ∧ Standard.omega_curve c z = c.Ok z
      ∧ Standard.omega_matter0 c = c.Om0
      ∧ Standard.omega_matter c z = c.Om z
      ∧ Standard.omega_dm0 c = c.Odm0
      ∧ Standard.omega_dm c z = c.Odm z
      ∧ Standard.omega_baryon0 c = c.Ob0
      ∧ Standard.omega_baryon c z = c.Ob z
      ∧ Standard.omega_photon0 c = c.Ogamma0
      ∧ Standard.omega_photon c z = c.Ogamma z
      ∧ Standard.omega_neutrino0 c = c.Onu0
      ∧ Standard.omega_neutrino c z = c.Onu z
      ∧ Standard.omega_de0 c = c.Ode0
      ∧ Standard.omega_de c z = c.Ode z)
    ∧ (Components.omega_curve0 c = c.Ok0
      ∧ Components.omega_curve c z = c.Ok z
      ∧ Components.omega_matter0 c = c.Om0
      ∧ Components.omega_matter c z = c.Om z
      ∧ Components.omega_dm0 c = c.Odm0
      ∧ Components.omega_dm c z = c.Odm z
      ∧ Components.omega_baryon0 c = c.Ob0
      ∧ Components.omega_baryon c z = c.Ob z
      ∧ Components.omega_photon0 c = c.Ogamma0
      ∧ Components.omega_photon c z = c.Ogamma z
      ∧ Components.omega_neutrino0 c = c.Onu0
      ∧ Components.omega_neutrino c z = c.Onu z
      ∧ Components.omega_de0 c = c.Ode0
      ∧ Components.omega_de c z = c.Ode z
      ∧ Components.N_eff c = c.Neff
      ∧ Components.mass_nu c = c.m_nu) := by
  exact ⟨⟨rfl, rfl, rfl, rfl, rfl, rfl, rfl, rfl, rfl, rfl, rfl, rfl, rfl, rfl⟩,
    ⟨rfl, rfl, rfl, rfl, rfl, rfl, rfl, rfl, rfl, rfl, rfl⟩,
    ⟨rfl, rfl, rfl, rfl, rfl, rfl, rfl, rfl, rfl, rfl, rfl, rfl, rfl, rfl⟩,
    ⟨rfl, rfl, rfl, rfl, rfl, rfl, rfl, rfl, rfl, rfl, rfl, rfl, rfl, rfl, rfl, rfl⟩⟩

/-- C6: the component layer exists in two versions, one in the `standard`
module, one in the per-species `components` modules; in their default
(unspecialized) form, each same-named omega/rho function (plus `N_eff` and
`mass_nu`) of the two versions computes exactly the same value on every
cosmology `c`, redshift `z` and type tag `t` — the duplication is
behaviorally redundant. -/
theorem c6_standard_components_redundant [DecidableEq T] [Mul A]
    (t : T) (c : Cosmology A) (z : A) :
    (Standard.omega_curve0 c = Components.omega_curve0 c
      ∧ Standard.omega_curve c z = Components.omega_curve c z
      ∧ Standard.rho_curve0 c = Components.rho_curve0.call (t, c)
      ∧ Standard.rho_curve c z = Components.rho_curve.call (t, c) z
      ∧ Standard.omega_matter0 c = Components.omega_matter0 c
      ∧ Standard.omega_matter c z = Components.omega_matter c z
      ∧ Standard.rho_matter0 c = Components.rho_matter0.call (t, c)
      ∧ Standard.rho_matter c z = Components.rho_matter.call (t, c) z)
    ∧ (Standard.omega_dm0 c = Components.omega_dm0 c
      ∧ Standard.omega_dm c z = Components.omega_dm c z
      ∧ Standard.rho_dm0.call (t, c) = Components.rho_dm0.call (t, c)
      ∧ Standard.rho_dm.call (t, c) z = Components.rho_dm.call (t, c) z
      ∧ Standard.omega_baryon0 c = Components.omega_baryon0 c
      ∧ Standard.omega_baryon c z = Components.omega_baryon c z
      ∧ Standard.rho_baryon0.call (t, c) = Components.rho_baryon0.call (t, c)
      ∧ Standard.rho_baryon.call (t, c) z = Components.rho_baryon.call (t, c) z)
    ∧ (Standard.omega_photon0 c = Components.omega_photon0 c
      ∧ Standard.omega_photon c z = Components.omega_photon c z
      ∧ Standard.rho_photon0.call (t, c) = Components.rho_photon0.call (t, c)
      ∧ Standard.rho_photon.call (t, c) z = Components.rho_photon.call (t, c) z
      ∧ Standard.omega_neutrino0 c = Components.omega_neutrino0 c
      ∧ Standard.omega_neutrino c z = Components.omega_neutrino c z
      ∧ Standard.rho_neutrino0.call (t, c) = Components.rho_neutrino0.call (t, c)
      ∧ Standard.rho_neutrino.call (t, c) z = Components.rho_neutrino.call (t, c) z)
    ∧ (Standard.omega_de0 c = Components.omega_de0 c
      ∧ Standard.omega_de c z = Components.omega_de c z
      ∧ Standard.rho_de0.call (t, c) = Components.rho_de0.call (t, c)
      ∧ Standard.rho_de.call (t, c) z = Components.rho_de.call (t, c) z
      ∧ Standard.N_eff c = Components.N_eff c
      ∧ Standard.mass_nu c = Components.mass_nu c) := by
  exact ⟨⟨rfl, rfl, rfl, rfl, rfl, rfl, rfl, rfl⟩,
    ⟨rfl, rfl, rfl, rfl, rfl, rfl, rfl, rfl⟩,
    ⟨rfl, rfl, rfl, rfl, rfl, rfl, rfl, rfl⟩,
    ⟨rfl, rfl, rfl, rfl, rfl, rfl⟩⟩

/-- C2: `get_namespace` fails with the Unrecognized Input error exactly
when no argument satisfies the cosmology protocol (empty namespace set),
returns a namespace `n` exactly when the conforming arguments report the
single distinct namespace `n`, and fails with the Namespace Conflict error
exactly when they report two or more distinct namespaces; the three
iffs make the outcomes mutually exclusive and exhaustive over the
zero/one/many cardinality of the namespace set. -/
theorem c2_get_namespace_trichotomy [DecidableEq N] (cosmos : List (Option N)) :
    (get_namespace cosmos = .error .unrecognizedInput
      ↔ (cosmos.filterMap id).dedup = [])
    ∧ (∀ n, get_namespace cosmos = .ok n
      ↔ (cosmos.filterMap id).dedup = [n])
    ∧ (get_namespace cosmos = .error .multipleNamespaces
      ↔ 2 ≤ (cosmos.filterMap id).dedup.length) := by
  rcases h : (cosmos.filterMap id).dedup with _ | ⟨a, _ | ⟨b, l⟩⟩ <;>
    simp [get_namespace, h]

/-- C4: dispatch is keyed only on the concrete runtime type tag of the
first (cosmology) argument and selects exactly one implementation per
call: after registering a specialization for tag `t` on a singledispatch
rho function (`background.rho_total` and `components.rho_dm` shown, as
in the source), every instance tagged `t` gets the specialized result and
every instance of any other, unregistered tag gets the generic default
formula's result; in general a call runs the registered implementation
exactly when the registry has an entry for the tag, and the default
exactly otherwise. -/
theorem c4_dispatch_override [DecidableEq T] [Mul A] (t u : T)
    (impl : Cosmology A → A → A) (c : Cosmology A) (z : A) :
    ((Background.rho_total.register t impl).call (t, c) z = impl c z
      ∧ (u ≠ t → (Background.rho_total.register t impl).call (u, c) z
          = c.Otot z * c.critical_density z))
    ∧ ((Components.rho_dm.register t impl).call (t, c) z = impl c z
      ∧ (u ≠ t → (Components.rho_dm.register t impl).call (u, c) z
          = c.Odm z * c.critical_density z))
    ∧ (∀ f : SDFun T A (A → A),
        (∀ g, sdLookup f.registry u = some g → f.call (u, c) = g c)
        ∧ (sdLookup f.registry u = none → f.call (u, c) = f.default c)) := by
  refine ⟨⟨congrFun (sd_register_call_self _ t impl c) z, fun hu => ?_⟩,
    ⟨congrFun (sd_register_call_self _ t impl c) z, fun hu => ?_⟩,
    fun f => sd_call_dichotomy f u c⟩
  · exact congrFun (sd_register_call_other Background.rho_total t u impl c (Ne.symm hu) rfl) z
  · exact congrFun (sd_register_call_other Components.rho_dm t u impl c (Ne.symm hu) rfl) z

/-- C4 witness: at concrete tags 0 and 1 over `Int`, registering the
specialization `fun c z => 999` on `background.rho_total` for tag 0 makes
the call at tag 0 return 999 while the call at the unregistered tag 1
returns the generic product. -/
theorem c4_dispatch_override_witness :
    ((Background.rho_total.register 0 (fun _ _ => 999)).call
        ((0 : Nat), intCosmo) 1 = 999
      ∧ ((1 : Nat) ≠ 0 → (Background.rho_total.register 0 (fun _ _ => 999)).call
          ((1 : Nat), intCosmo) 1 = intCosmo.Otot 1 * intCosmo.critical_density 1))
    ∧ ((Components.rho_dm.register 0 (fun _ _ => 999)).call
        ((0 : Nat), intCosmo) 1 = 999
      ∧ ((1 : Nat) ≠ 0 → (Components.rho_dm.register 0 (fun _ _ => 999)).call
          ((1 : Nat), intCosmo) 1 = intCosmo.Odm 1 * intCosmo.critical_density 1))
    ∧ (∀ f : SDFun Nat Int (Int → Int),
        (∀ g, sdLookup f.registry 1 = some g → f.call (1, intCosmo) = g intCosmo)
        ∧ (sdLookup f.registry 1 = none → f.call (1, intCosmo) = f.default intCosmo)) :=
  c4_dispatch_override 0 1 (fun _ _ => 999) intCosmo 1

/-- C5 counterexample: in `standard.py`, `rho_curve0` is one of the
module's public rho functions but is not decorated with
`@singledispatch`, so not every public rho function of every module is a
type-dispatched extension point (the same holds for `rho_curve`,
`rho_matter0` and `rho_matter`). -/
theorem c5_counterexample :
    ("rho_curve0" ∈ standardRhoFunctions ∧ "rho_curve0" ∉ standardDispatchable)
    ∧ ¬ (∀ n ∈ standardRhoFunctions, n ∈ standardDispatchable) := by
  decide

/-- C5 (amended): the rho functions of `background.py` and of the
`components` modules, and all rho functions of `standard.py` except
`rho_curve0`, `rho_curve`, `rho_matter0` and `rho_matter`, are
singledispatch extension points on which a registered specialization for
a concrete type tag takes precedence over the generic Ω × ρ_crit default;
the four exceptions are plain functions that always compute the generic
formula. -/
theorem c5_amended_extension_points [DecidableEq T] [Mul A] (t : T)
    (f0 : Cosmology A → A) (f1 : Cosmology A → A → A)
    (c : Cosmology A) (z : A) :
    (backgroundRhoFunctions = backgroundDispatchable
      ∧ componentsRhoFunctions = componentsDispatchable
      ∧ standardRhoFunctions.filter (fun n => decide (n ∉ standardDispatchable))
          = ["rho_curve0", "rho_curve", "rho_matter0", "rho_matter"])
    ∧ ((Background.rho_total0.register t f0).call (t, c) = f0 c
      ∧ (Background.rho_total.register t f1).call (t, c) = f1 c)
    ∧ ((Standard.rho_dm0.register t f0).call (t, c) = f0 c
      ∧ (Standard.rho_dm.register t f1).call (t, c) = f1 c
      ∧ (Standard.rho_baryon0.register t f0).call (t, c) = f0 c
      ∧ (Standard.rho_baryon.register t f1).call (t, c) = f1 c
      ∧ (Standard.rho_photon0.register t f0).call (t, c) = f0 c
      ∧ (Standard.rho_photon.register t f1).call (t, c) = f1 c
      ∧ (Standard.rho_neutrino0.register t f0).call (t, c) = f0 c
      ∧ (Standard.rho_neutrino.register t f1).call (t, c) = f1 c
      ∧ (Standard.rho_de0.register t f0).call (t, c) = f0 c
      ∧ (Standard.rho_de.register t f1).call (t, c) = f1 c)
    ∧ ((Components.rho_curve0.register t f0).call (t, c) = f0 c
      ∧ (Components.rho_curve.register t f1).call (t, c) = f1 c
      ∧ (Components.rho_matter0.register t f0).call (t, c) = f0 c
      ∧ (Components.rho_matter.register t f1).call (t, c) = f1 c
      ∧ (Components.rho_dm0.register t f0).call (t, c) = f0 c
      ∧ (Components.rho_dm.register t f1).call (t, c) = f1 c
      ∧ (Components.rho_baryon0.register t f0).call (t, c) = f0 c
      ∧ (Components.rho_baryon.register t f1).call (t, c) = f1 c
      ∧ (Components.rho_photon0.register t f0).call (t, c) = f0 c
      ∧ (Components.rho_photon.register t f1).call (t, c) = f1 c
      ∧ (Components.rho_neutrino0.register t f0).call (t, c) = f0 c
      ∧ (Components.rho_neutrino.register t f1).call (t, c) = f1 c
      ∧ (Components.rho_de0.register t f0).call (t, c) = f0 c
      ∧ (Components.rho_de.register t f1).call (t, c) = f1 c)
    ∧ (Standard.rho_curve0 c = c.Ok0 * c.critical_density0
      ∧ Standard.rho_curve c z = c.Ok z * c.critical_density z
      ∧ Standard.rho_matter0 c = c.Om0 * c.critical_density0
      ∧ Standard.rho_matter c z = c.Om z * c.critical_density z) := by
  refine ⟨⟨rfl, rfl, by decide⟩,
    ⟨sd_register_call_self _ t f0 c, sd_register_call_self _ t f1 c⟩,
    ⟨sd_register_call_self _ t f0 c, sd_register_call_self _ t f1 c,
      sd_register_call_self _ t f0 c, sd_register_call_self _ t f1 c,
      sd_register_call_self _ t f0 c, sd_register_call_self _ t f1 c,
      sd_register_call_self _ t f0 c, sd_register_call_self _ t f1 c,
      sd_register_call_self _ t f0 c, sd_register_call_self _ t f1 c⟩,
    ⟨sd_register_call_self _ t f0 c, sd_register_call_self _ t f1 c,
      sd_register_call_self _ t f0 c, sd_register_call_self _ t f1 c,
      sd_register_call_self _ t f0 c, sd_register_call_self _ t f1 c,
      sd_register_call_self _ t f0 c, sd_register_call_self _ t f1 c,
      sd_register_call_self _ t f0 c, sd_register_call_self _ t f1 c,
      sd_register_call_self _ t f0 c, sd_register_call_self _ t f1 c,
      sd_register_call_self _ t f0 c, sd_register_call_self _ t f1 c⟩,
    ⟨rfl, rfl, rfl, rfl⟩⟩

/-- C10: the duplicated `rho_dm0` dispatchers of `standard.py` and
`components/matter_cdm.py` have independent registries: registering a
specialization on the `standard` module's `rho_dm0` leaves the
`components` module's `rho_dm0` at its initial state (which still runs the
generic formula), and — concretely, registering `fun c => 999` for tag 0
over `Int` — the two same-named functions then return different results
(999 versus 6 · 3 = 18) on the same cosmology instance. -/
theorem c10_independent_registries [DecidableEq T] [Mul A] (t : T)
    (impl : Cosmology A → A) (c : Cosmology A) :
    ((registerStdDm0 initialDmState t impl).comp_rho_dm0 = Components.rho_dm0
      ∧ (registerStdDm0 initialDmState t impl).std_rho_dm0.call (t, c) = impl c
      ∧ (registerStdDm0 initialDmState t impl).comp_rho_dm0.call (t, c)
          = c.Odm0 * c.critical_density0)
    ∧ ((registerStdDm0 initialDmState (0 : Nat) (fun _ => 999)).std_rho_dm0.call
          (0, intCosmo) = 999
      ∧ (registerStdDm0 initialDmState (0 : Nat) (fun _ => 999)).comp_rho_dm0.call
          (0, intCosmo) = 18
      ∧ (999 : Int) ≠ 18) := by
  refine ⟨⟨rfl, sd_register_call_self _ t impl c, rfl⟩, ⟨?_, rfl, by decide⟩⟩
  exact sd_register_call_self (Standard.rho_dm0 (T := Nat) (A := Int)) 0 (fun _ => 999) intCosmo

/-- C7 counterexample: the aggregate-matter species has the uniform
four-function surface defined in `components/matter.py`, but its
functions are absent from the `components` package export list
(`__init__.py`'s imports and `__all__`), so the package surface does not
expose all seven species classes: concretely, `omega_matter0` is
required for the species token `matter` yet is not exported. -/
theorem c7_counterexample :
    ("matter" ∈ sevenSpeciesTokens
      ∧ "omega_matter0" ∈ speciesFunNames ("matter")
      ∧ "omega_matter0" ∉ componentsPackageAll)
    ∧ ¬ (∀ s ∈ sevenSpeciesTokens,
          ∀ n ∈ speciesFunNames s, n ∈ componentsPackageAll) := by
  decide

/-- C7 (amended): the `components` package exports the uniform
four-function surface `omega_<s>0`, `omega_<s>`, `rho_<s>0`, `rho_<s>`
for six species classes — curvature, cold dark matter, baryons, photons,
neutrinos, dark energy — plus `N_eff` and `mass_nu`; the four
aggregate-matter functions are defined in `components/matter.py` but are
not exported by the package. -/
theorem c7_amended_component_surface :
    (∀ s ∈ ["curve", "dm", "baryon", "photon", "neutrino", "de"],
      ∀ n ∈ speciesFunNames s, n ∈ componentsPackageAll)
    ∧ ("N_eff" ∈ componentsPackageAll ∧ "mass_nu" ∈ componentsPackageAll)
    ∧ (∀ n ∈ speciesFunNames ("matter"),
        n ∈ componentsMatterModuleDefs ∧ n ∉ componentsPackageAll) := by
  decide

/-- C8: over fallible cosmologies, every derived-quantity function
propagates an accessor's error unchanged and unwrapped, and raises no
error of its own: the direct-read functions return exactly the
accessor's result (value or error), and each generic ρ = Ω × ρ_crit
product propagates an error of either factor unchanged (the Ω factor
pre-empting ρ_crit, per left-to-right evaluation) and errors only when
one of its two accessors errored. -/
theorem c8_error_propagation [Mul A] (c : FCosmology E A) (z : A) (e : E) :
    (FBackground.scale_factor0 c = c.scale_factor0
      ∧ FBackground.scale_factor c z = c.scale_factor z
      ∧ FBackground.omega_total0 c = c.Otot0
      ∧ FBackground.omega_total c z = c.Otot z
      ∧ FBackground.critical_density0 c = c.critical_density0
      ∧ FBackground.critical_density c z = c.critical_density z
      ∧ FBackground.age c z = c.age z
      ∧ FBackground.lookback_time c z = c.lookback_time z
      ∧ FBackground.comoving_distance c z = c.comoving_distance z
      ∧ FBackground.comoving_transverse_distance c z = c.comoving_transverse_distance z
      ∧ FBackground.angular_diameter_distance c z = c.angular_diameter_distance z
      ∧ FBackground.luminosity_distance c z = c.luminosity_distance z
      ∧ FBackground.comoving_volume c z = c.comoving_volume z
      ∧ FBackground.differential_comoving_volume c z = c.differential_comoving_volume z)
    ∧ (FStandard.hubble_parameter0 c = c.H0
      ∧ FStandard.dimensionless_hubble_parameter0 c = c.h
      ∧ FStandard.hubble_distance c = c.hubble_distance
      ∧ FStandard.hubble_time c = c.hubble_time
      ∧ FStandard.hubble_parameter c z = c.H z
      ∧ FStandard.standardized_hubble_function c z = c.efunc z
      ∧ FStandard.inv_standardized_hubble_function c z = c.inv_efunc z
      ∧ FStandard.Tcmb0 c = c.Tcmb0
      ∧ FStandard.Tcmb c z = c.Tcmb z
      ∧ FStandard.N_eff c = c.Neff
      ∧ FStandard.mass_nu c = c.m_nu)
    ∧ (FStandard.omega_curve0 c = c.Ok0
      ∧ FStandard.omega_curve c z = c.Ok z
      ∧ FStandard.omega_matter0 c = c.Om0
      ∧ FStandard.omega_matter c z = c.Om z
      ∧ FStandard.omega_dm0 c = c.Odm0
      ∧ FStandard.omega_dm c z = c.Odm z
      ∧ FStandard.omega_baryon0 c = c.Ob0
      ∧ FStandard.omega_baryon c z = c.Ob z
      ∧ FStandard.omega_photon0 c = c.Ogamma0
      ∧ FStandard.omega_photon c z = c.Ogamma z
      ∧ FStandard.omega_neutrino0 c = c.Onu0
      ∧ FStandard.omega_neutrino c z = c.Onu z
      ∧ FStandard.omega_de0 c = c.Ode0
      ∧ FStandard.omega_de c z = c.Ode z)
    ∧ (FComponents.omega_curve0 c = c.Ok0
      ∧ FComponents.omega_curve c z = c.Ok z
      ∧ FComponents.omega_matter0 c = c.Om0
      ∧ FComponents.omega_matter c z = c.Om z
      ∧ FComponents.omega_dm0 c = c.Odm0
      ∧ FComponents.omega_dm c z = c.Odm z
      ∧ FComponents.omega_baryon0 c = c.Ob0
      ∧ FComponents.omega_baryon c z = c.Ob z
      ∧ FComponents.omega_photon0 c = c.Ogamma0
      ∧ FComponents.omega_photon c z = c.Ogamma z
      ∧ FComponents.omega_neutrino0 c = c.Onu0
      ∧ FComponents.omega_neutrino c z = c.Onu z
      ∧ FComponents.omega_de0 c = c.Ode0
      ∧ FComponents.omega_de c z = c.Ode z
      ∧ FComponents.N_eff c = c.Neff
      ∧ FComponents.mass_nu c = c.m_nu)
    ∧ (((c.Otot0 = .error e → FBackground.rho_total0 c = .error e)
        ∧ (∀ a, c.Otot0 = .ok a → c.critical_density0 = .error e →
            FBackground.rho_total0 c = .error e)
        ∧ (FBackground.rho_total0 c = .error e →
            c.Otot0 = .error e ∨ c.critical_density0 = .error e))
      ∧ ((c.Otot z = .error e → FBackground.rho_total c z = .error e)
        ∧ (∀ a, c.Otot z = .ok a → c.critical_density z = .error e →
            FBackground.rho_total c z = .error e)
        ∧ (FBackground.rho_total c z = .error e →
            c.Otot z = .error e ∨ c.critical_density z = .error e)))
    ∧ (((c.Ok0 = .error e → FStandard.rho_curve0 c = .error e)
        ∧ (∀ a, c.Ok0 = .ok a → c.critical_density0 = .error e →
            FStandard.rho_curve0 c = .error e)
        ∧ (FStandard.rho_curve0 c = .error e →
            c.Ok0 = .error e ∨ c.critical_density0 = .error e))
      ∧ ((c.Ok z = .error e → FStandard.rho_curve c z = .error e)
        ∧ (∀ a, c.Ok z = .ok a → c.critical_density z = .error e →
            FStandard.rho_curve c z = .error e)
        ∧ (FStandard.rho_curve c z = .error e →
            c.Ok z = .error e ∨ c.critical_density z = .error e))
      ∧ ((c.Om0 = .error e → FStandard.rho_matter0 c = .error e)
        ∧ (∀ a, c.Om0 = .ok a → c.critical_density0 = .error e →
            FStandard.rho_matter0 c = .error e)
        ∧ (FStandard.rho_matter0 c = .error e →
            c.Om0 = .error e ∨ c.critical_density0 = .error e))
      ∧ ((c.Om z = .error e → FStandard.rho_matter c z = .error e)
        ∧ (∀ a, c.Om z = .ok a → c.critical_density z = .error e →
            FStandard.rho_matter c z = .error e)
        ∧ (FStandard.rho_matter c z = .error e →
            c.Om z = .error e ∨ c.critical_density z = .error e))
      ∧ ((c.Odm0 = .error e → FStandard.rho_dm0 c = .error e)
        ∧ (∀ a, c.Odm0 = .ok a → c.critical_density0 = .error e →
            FStandard.rho_dm0 c = .error e)
        ∧ (FStandard.rho_dm0 c = .error e →
            c.Odm0 = .error e ∨ c.critical_density0 = .error e))
      ∧ ((c.Odm z = .error e → FStandard.rho_dm c z = .error e)
        ∧ (∀ a, c.Odm z = .ok a → c.critical_density z = .error e →
            FStandard.rho_dm c z = .error e)
        ∧ (FStandard.rho_dm c z = .error e →
            c.Odm z = .error e ∨ c.critical_density z = .error e))
      ∧ ((c.Ob0 = .error e → FStandard.rho_baryon0 c = .error e)
        ∧ (∀ a, c.Ob0 = .ok a → c.critical_density0 = .error e →
            FStandard.rho_baryon0 c = .error e)
        ∧ (FStandard.rho_baryon0 c = .error e →
            c.Ob0 = .error e ∨ c.critical_density0 = .error e))
      ∧ ((c.Ob z = .error e → FStandard.rho_baryon c z = .error e)
        ∧ (∀ a, c.Ob z = .ok a → c.critical_density z = .error e →
            FStandard.rho_baryon c z = .error e)
        ∧ (FStandard.rho_baryon c z = .error e →
            c.Ob z = .error e ∨ c.critical_density z = .error e))
      ∧ ((c.Ogamma0 = .error e → FStandard.rho_photon0 c = .error e)
        ∧ (∀ a, c.Ogamma0 = .ok a → c.critical_density0 = .error e →
            FStandard.rho_photon0 c = .error e)
        ∧ (FStandard.rho_photon0 c = .error e →
            c.Ogamma0 = .error e ∨ c.critical_density0 = .error e))
      ∧ ((c.Ogamma z = .error e → FStandard.rho_photon c z = .error e)
        ∧ (∀ a, c.Ogamma z = .ok a → c.critical_density z = .error e →
            FStandard.rho_photon c z = .error e)
        ∧ (FStandard.rho_photon c z = .error e →
            c.Ogamma z = .error e ∨ c.critical_density z = .error e))
      ∧ ((c.Onu0 = .error e → FStandard.rho_neutrino0 c = .error e)
        ∧ (∀ a, c.Onu0 = .ok a → c.critical_density0 = .error e →
            FStandard.rho_neutrino0 c = .error e)
        ∧ (FStandard.rho_neutrino0 c = .error e →
            c.Onu0 = .error e ∨ c.critical_density0 = .error e))
      ∧ ((c.Onu z = .error e → FStandard.rho_neutrino c z = .error e)
        ∧ (∀ a, c.Onu z = .ok a → c.critical_density z = .error e →
            FStandard.rho_neutrino c z = .error e)
        ∧ (FStandard.rho_neutrino c z = .error e →
            c.Onu z = .error e ∨ c.critical_density z = .error e))
      ∧ ((c.Ode0 = .error e → FStandard.rho_de0 c = .error e)
        ∧ (∀ a, c.Ode0 = .ok a → c.critical_density0 = .error e →
            FStandard.rho_de0 c = .error e)
        ∧ (FStandard.rho_de0 c = .error e →
            c.Ode0 = .error e ∨ c.critical_density0 = .error e))
      ∧ ((c.Ode z = .error e → FStandard.rho_de c z = .error e)
        ∧ (∀ a, c.Ode z = .ok a → c.critical_density z = .error e →
            FStandard.rho_de c z = .error e)
        ∧ (FStandard.rho_de c z = .error e →
            c.Ode z = .error e ∨ c.critical_density z = .error e)))
    ∧ (((c.Ok0 = .error e → FComponents.rho_curve0 c = .error e)
        ∧ (∀ a, c.Ok0 = .ok a → c.critical_density0 = .error e →
            FComponents.rho_curve0 c = .error e)
        ∧ (FComponents.rho_curve0 c = .error e →
            c.Ok0 = .error e ∨ c.critical_density0 = .error e))
      ∧ ((c.Ok z = .error e → FComponents.rho_curve c z = .error e)
        ∧ (∀ a, c.Ok z = .ok a → c.critical_density z = .error e →
            FComponents.rho_curve c z = .error e)
        ∧ (FComponents.rho_curve c z = .error e →
            c.Ok z = .error e ∨ c.critical_density z = .error e))
      ∧ ((c.Om0 = .error e → FComponents.rho_matter0 c = .error e)
        ∧ (∀ a, c.Om0 = .ok a → c.critical_density0 = .error e →
            FComponents.rho_matter0 c = .error e)
        ∧ (FComponents.rho_matter0 c = .error e →
            c.Om0 = .error e ∨ c.critical_density0 = .error e))
      ∧ ((c.Om z = .error e → FComponents.rho_matter c z = .error e)
        ∧ (∀ a, c.Om z = .ok a → c.critical_density z = .error e →
            FComponents.rho_matter c z = .error e)
        ∧ (FComponents.rho_matter c z = .error e →
            c.Om z = .error e ∨ c.critical_density z = .error e))
      ∧ ((c.Odm0 = .error e → FComponents.rho_dm0 c = .error e)
        ∧ (∀ a, c.Odm0 = .ok a → c.critical_density0 = .error e →
            FComponents.rho_dm0 c = .error e)
        ∧ (FComponents.rho_dm0 c = .error e →
            c.Odm0 = .error e ∨ c.critical_density0 = .error e))
      ∧ ((c.Odm z = .error e → FComponents.rho_dm c z = .error e)
        ∧ (∀ a, c.Odm z = .ok a → c.critical_density z = .error e →
            FComponents.rho_dm c z = .error e)
        ∧ (FComponents.rho_dm c z = .error e →
            c.Odm z = .error e ∨ c.critical_density z = .error e))
      ∧ ((c.Ob0 = .error e → FComponents.rho_baryon0 c = .error e)
        ∧ (∀ a, c.Ob0 = .ok a → c.critical_density0 = .error e →
            FComponents.rho_baryon0 c = .error e)
        ∧ (FComponents.rho_baryon0 c = .error e →
            c.Ob0 = .error e ∨ c.critical_density0 = .error e))
      ∧ ((c.Ob z = .error e → FComponents.rho_baryon c z = .error e)
        ∧ (∀ a, c.Ob z = .ok a → c.critical_density z = .error e →
            FComponents.rho_baryon c z = .error e)
        ∧ (FComponents.rho_baryon c z = .error e →
            c.Ob z = .error e ∨ c.critical_density z = .error e))
      ∧ ((c.Ogamma0 = .error e → FComponents.rho_photon0 c = .error e)
        ∧ (∀ a, c.Ogamma0 = .ok a → c.critical_density0 = .error e →
            FComponents.rho_photon0 c = .error e)
        ∧ (FComponents.rho_photon0 c = .error e →
            c.Ogamma0 = .error e ∨ c.critical_density0 = .error e))
      ∧ ((c.Ogamma z = .error e → FComponents.rho_photon c z = .error e)
        ∧ (∀ a, c.Ogamma z = .ok a → c.critical_density z = .error e →
            FComponents.rho_photon c z = .error e)
        ∧ (FComponents.rho_photon c z = .error e →
            c.Ogamma z = .error e ∨ c.critical_density z = .error e))
      ∧ ((c.Onu0 = .error e → FComponents.rho_neutrino0 c = .error e)
        ∧ (∀ a, c.Onu0 = .ok a → c.critical_density0 = .error e →
            FComponents.rho_neutrino0 c = .error e)
        ∧ (FComponents.rho_neutrino0 c = .error e →
            c.Onu0 = .error e ∨ c.critical_density0 = .error e))
      ∧ ((c.Onu z = .error e → FComponents.rho_neutrino c z = .error e)
        ∧ (∀ a, c.Onu z = .ok a → c.critical_density z = .error e →
            FComponents.rho_neutrino c z = .error e)
        ∧ (FComponents.rho_neutrino c z = .error e →
            c.Onu z = .error e ∨ c.critical_density z = .error e))
      ∧ ((c.Ode0 = .error e → FComponents.rho_de0 c = .error e)
        ∧ (∀ a, c.Ode0 = .ok a → c.critical_density0 = .error e →
            FComponents.rho_de0 c = .error e)
        ∧ (FComponents.rho_de0 c = .error e →
            c.Ode0 = .error e ∨ c.critical_density0 = .error e))
      ∧ ((c.Ode z = .error e → FComponents.rho_de c z = .error e)
        ∧ (∀ a, c.Ode z = .ok a → c.critical_density z = .error e →
            FComponents.rho_de c z = .error e)
        ∧ (FComponents.rho_de c z = .error e →
            c.Ode z = .error e ∨ c.critical_density z = .error e))) := by
  exact ⟨⟨rfl, rfl, rfl, rfl, rfl, rfl, rfl, rfl, rfl, rfl, rfl, rfl, rfl, rfl⟩,
    ⟨rfl, rfl, rfl, rfl, rfl, rfl, rfl, rfl, rfl, rfl, rfl⟩,
    ⟨rfl, rfl, rfl, rfl, rfl, rfl, rfl, rfl, rfl, rfl, rfl, rfl, rfl, rfl⟩,
    ⟨rfl, rfl, rfl, rfl, rfl, rfl, rfl, rfl, rfl, rfl, rfl, rfl, rfl, rfl, rfl, rfl⟩,
    ⟨exProd_error_prop _ _ e, exProd_error_prop _ _ e⟩,
    ⟨exProd_error_prop _ _ e, exProd_error_prop _ _ e, exProd_error_prop _ _ e,
      exProd_error_prop _ _ e, exProd_error_prop _ _ e, exProd_error_prop _ _ e,
      exProd_error_prop _ _ e, exProd_error_prop _ _ e, exProd_error_prop _ _ e,
      exProd_error_prop _ _ e, exProd_error_prop _ _ e, exProd_error_prop _ _ e,
      exProd_error_prop _ _ e, exProd_error_prop _ _ e⟩,
    ⟨exProd_error_prop _ _ e, exProd_error_prop _ _ e, exProd_error_prop _ _ e,
      exProd_error_prop _ _ e, exProd_error_prop _ _ e, exProd_error_prop _ _ e,
      exProd_error_prop _ _ e, exProd_error_prop _ _ e, exProd_error_prop _ _ e,
      exProd_error_prop _ _ e, exProd_error_prop _ _ e, exProd_error_prop _ _ e,
      exProd_error_prop _ _ e, exProd_error_prop _ _ e⟩⟩

/-- C8 witness: on the concrete fallible cosmology whose `Otot0` read
raises error 7, `rho_total0` raises exactly error 7. -/
theorem c8_error_propagation_witness :
    FBackground.rho_total0 errCosmo = Except.error 7 :=
  (c8_error_propagation errCosmo 1 7).2.2.2.2.1.1.1 rfl

/-- C9: every operation of the layer is a pure function of its inputs —
two calls of the same operation with equal inputs (equal cosmology,
redshift, type tag, dispatch state and argument list) return equal
outputs, for all the background, standard and components functions, for
the dispatched calls under any registry state, and for namespace
resolution.  (In the embedding every operation takes its inputs by value
and returns only its result, mirroring the source bodies, which are
single read-and-combine expressions with no assignment.) -/
theorem c9_purity_two_run [DecidableEq T] [DecidableEq N] [Mul A]
    (t t1 : T) (c c1 : Cosmology A) (z z1 : A) (ns ns1 : List (Option N))
    (ht : t = t1) (hc : c = c1) (hz : z = z1) (hns : ns = ns1) :
    (Background.scale_factor0 c = Background.scale_factor0 c1
      ∧ Background.scale_factor c z = Background.scale_factor c1 z1
      ∧ Background.omega_total0 c = Background.omega_total0 c1
      ∧ Background.omega_total c z = Background.omega_total c1 z1
      ∧ Background.critical_density0 c = Background.critical_density0 c1
      ∧ Background.critical_density c z = Background.critical_density c1 z1
      ∧ Background.age c z = Background.age c1 z1
      ∧ Background.lookback_time c z = Background.lookback_time c1 z1
      ∧ Background.comoving_distance c z = Background.comoving_distance c1 z1
      ∧ Background.comoving_transverse_distance c z
          = Background.comoving_transverse_distance c1 z1
      ∧ Background.angular_diameter_distance c z
          = Background.angular_diameter_distance c1 z1
      ∧ Background.luminosity_distance c z = Background.luminosity_distance c1 z1
      ∧ Background.comoving_volume c z = Background.comoving_volume c1 z1
      ∧ Background.differential_comoving_volume c z
          = Background.differential_comoving_volume c1 z1)
    ∧ (Standard.hubble_parameter0 c = Standard.hubble_parameter0 c1
      ∧ Standard.dimensionless_hubble_parameter0 c
          = Standard.dimensionless_hubble_parameter0 c1
      ∧ Standard.hubble_distance c = Standard.hubble_distance c1
      ∧ Standard.hubble_time c = Standard.hubble_time c1
      ∧ Standard.hubble_parameter c z = Standard.hubble_parameter c1 z1
      ∧ Standard.standardized_hubble_function c z
          = Standard.standardized_hubble_function c1 z1
      ∧ Standard.inv_standardized_hubble_function c z
          = Standard.inv_standardized_hubble_function c1 z1
      ∧ Standard.Tcmb0 c = Standard.Tcmb0 c1
      ∧ Standard.Tcmb c z = Standard.Tcmb c1 z1
      ∧ Standard.N_eff c = Standard.N_eff c1
      ∧ Standard.mass_nu c = Standard.mass_nu c1)
    ∧ (Standard.omega_curve0 c = Standard.omega_curve0 c1
      ∧ Standard.omega_curve c z = Standard.omega_curve c1 z1
      ∧ Standard.rho_curve0 c = Standard.rho_curve0 c1
      ∧ Standard.rho_curve c z = Standard.rho_curve c1 z1
      ∧ Standard.omega_matter0 c = Standard.omega_matter0 c1
      ∧ Standard.omega_matter c z = Standard.omega_matter c1 z1
      ∧ Standard.rho_matter0 c = Standard.rho_matter0 c1
      ∧ Standard.rho_matter c z = Standard.rho_matter c1 z1
      ∧ Standard.omega_dm0 c = Standard.omega_dm0 c1
      ∧ Standard.omega_dm c z = Standard.omega_dm c1 z1
      ∧ Standard.omega_baryon0 c = Standard.omega_baryon0 c1
      ∧ Standard.omega_baryon c z = Standard.omega_baryon c1 z1
      ∧ Standard.omega_photon0 c = Standard.omega_photon0 c1
      ∧ Standard.omega_photon c z = Standard.omega_photon c1 z1
      ∧ Standard.omega_neutrino0 c = Standard.omega_neutrino0 c1
      ∧ Standard.omega_neutrino c z = Standard.omega_neutrino c1 z1
      ∧ Standard.omega_de0 c = Standard.omega_de0 c1
      ∧ Standard.omega_de c z = Standard.omega_de c1 z1)
    ∧ (Components.omega_curve0 c = Components.omega_curve0 c1
      ∧ Components.omega_curve c z = Components.omega_curve c1 z1
      ∧ Components.omega_matter0 c = Components.omega_matter0 c1
      ∧ Components.omega_matter c z = Components.omega_matter c1 z1
      ∧ Components.omega_dm0 c = Components.omega_dm0 c1
      ∧ Components.omega_dm c z = Components.omega_dm c1 z1
      ∧ Components.omega_baryon0 c = Components.omega_baryon0 c1
      ∧ Components.omega_baryon c z = Components.omega_baryon c1 z1
      ∧ Components.omega_photon0 c = Components.omega_photon0 c1
      ∧ Components.omega_photon c z = Components.omega_photon c1 z1
      ∧ Components.omega_neutrino0 c = Components.omega_neutrino0 c1
      ∧ Components.omega_neutrino c z = Components.omega_neutrino c1 z1
      ∧ Components.omega_de0 c = Components.omega_de0 c1
      ∧ Components.omega_de c z = Components.omega_de c1 z1
      ∧ Components.N_eff c = Components.N_eff c1
      ∧ Components.mass_nu c = Components.mass_nu c1)
    ∧ ((∀ f : SDFun T A A, f.call (t, c) = f.call (t1, c1))
      ∧ (∀ g : SDFun T A (A → A), g.call (t, c) z = g.call (t1, c1) z1)
      ∧ Background.rho_total0.call (t, c) = Background.rho_total0.call (t1, c1)
      ∧ Background.rho_total.call (t, c) z = Background.rho_total.call (t1, c1) z1
      ∧ Standard.rho_dm0.call (t, c) = Standard.rho_dm0.call (t1, c1)
      ∧ Standard.rho_dm.call (t, c) z = Standard.rho_dm.call (t1, c1) z1
      ∧ Components.rho_dm0.call (t, c) = Components.rho_dm0.call (t1, c1)
      ∧ Components.rho_dm.call (t, c) z = Components.rho_dm.call (t1, c1) z1)
    ∧ get_namespace ns = get_namespace ns1 := by
  subst ht
  subst hc
  subst hz
  subst hns
  exact ⟨⟨rfl, rfl, rfl, rfl, rfl, rfl, rfl, rfl, rfl, rfl, rfl, rfl, rfl, rfl⟩,
    ⟨rfl, rfl, rfl, rfl, rfl, rfl, rfl, rfl, rfl, rfl, rfl⟩,
    ⟨rfl, rfl, rfl, rfl, rfl, rfl, rfl, rfl, rfl, rfl, rfl, rfl, rfl, rfl, rfl,
      rfl, rfl, rfl⟩,
    ⟨rfl, rfl, rfl, rfl, rfl, rfl, rfl, rfl, rfl, rfl, rfl, rfl, rfl, rfl, rfl, rfl⟩,
    ⟨fun _ => rfl, fun _ => rfl, rfl, rfl, rfl, rfl, rfl, rfl⟩,
    rfl⟩

/-- C9 witness: the determinism property applied at concrete equal
inputs — tag 0, the concrete `Int` cosmology, redshift 1 and the
one-element namespace list — gives equal outputs of the two runs of
`scale_factor0`. -/
theorem c9_purity_two_run_witness :
    Background.scale_factor0 intCosmo = Background.scale_factor0 intCosmo :=
  (c9_purity_two_run (0 : Nat) 0 intCosmo intCosmo 1 1
    [some (0 : Nat)] [some 0] rfl rfl rfl rfl).1.1

end Claims

end CosmologyCore
